import Mathlib

/-!
Shallow embedding of the `DeepseekAISummarizer` class and the shared retry
helper from `src/src/publishers/interfaces/publisher.interface.ts`.

Modelling conventions:
* a thrown JavaScript `Error` is an `Err`, identified by its message string;
* the remote chat-completion API is a black box (spec §1/§6): the text
  extracted by `response.choices[0]?.message?.content` on attempt `k` is an
  oracle `responses : Nat → Option String` (`none` = the optional chain hit
  `undefined`/`null`);
* `JSON.parse` is a platform builtin, modelled as an abstract
  `jsonParse : String → Except String ParsedDoc` (error = the parse error's
  message);
* asynchronous waiting (`setTimeout`) is recorded as a list of delay
  milliseconds returned next to the outcome;
* the mutable class fields (`client`, `model`) are an explicit
  `SummarizerState` threaded through the stateful operations.
-/

namespace DeepseekAISummarizer

/-- A thrown JavaScript `Error`, identified by its message string. -/
structure Err where
  message : String
deriving DecidableEq, Repr

/-- Source constant `const MAX_RETRIES = 3`. -/
def MAX_RETRIES : Nat := 3

/-- Source constant `const RETRY_DELAY = 1000` (one second, in milliseconds). -/
def RETRY_DELAY : Nat := 1000

/-- Message of the error thrown by `summarize` on falsy `content`. -/
def invalidInputMsg : String := "Content is required for summarization"

/-- Message of the error thrown by `validateConfig` when the key is falsy. -/
def configErrorMsg : String := "DeepSeek API key is required"

/-- Message of the error thrown by `summarize` when the response text is falsy. -/
def emptySummaryMsg : String := "未获取到有效的摘要结果"

/-- Prefix of the message wrapped around a parse/format failure in `summarize`. -/
def parseFailPrefix : String := "解析摘要结果失败: "

/-- Message thrown inside the `try` block when a parsed summary fails the
structural field checks. -/
def badFormatMsg : String := "摘要结果格式不正确"

/-- Message of the error thrown by `generateTitle` when the response text is falsy. -/
def emptyTitleMsg : String := "未获取到有效的标题"

/-- Message of the `throw` statement placed after the retry loop. -/
def maxRetriesMsg : String := "Operation failed after max retries"

/-- JavaScript truthiness of an optional string: `undefined`/`null` and the
empty string are falsy (the code tests these with `!x` and `x || default`). -/
def truthyStr : Option String → Bool
  | none => false
  | some s => s != ""

/-- The `for (let attempt = 1; attempt <= MAX_RETRIES; attempt++)` loop of
`retryOperation`, fuel-indexed: `fuel` stands for `MAX_RETRIES + 1 - attempt`,
so `fuel = 0` is the loop condition failing, i.e. control falling through to
the statement after the loop. `op k` is the outcome of the `k`-th execution of
`operation()`. The result carries the list of `setTimeout` delays
(milliseconds, `RETRY_DELAY * attempt` each) awaited between attempts. -/
def retryLoop {T : Type} (op : Nat → Except Err T) (fuel attempt : Nat) :
    Except Err T × List Nat :=
  match fuel with
  | 0 => (Except.error ⟨maxRetriesMsg⟩, [])
  | fuel' + 1 =>
    match op attempt with
    | Except.ok v => (Except.ok v, [])
    | Except.error e =>
      if attempt = MAX_RETRIES then (Except.error e, [])
      else
        let rest := retryLoop op fuel' (attempt + 1)
        (rest.1, RETRY_DELAY * attempt :: rest.2)

/-- `retryOperation(operation)`: runs the loop from `attempt = 1`. -/
def retryOperation {T : Type} (op : Nat → Except Err T) : Except Err T × List Nat :=
  retryLoop op MAX_RETRIES 1

/-- The same loop with the statement after the loop replaced by a distinct
marker (`none`) instead of its `throw new Error("Operation failed after max
retries")`: used to state that this statement is unreachable. -/
def retryLoopMarked {T : Type} (op : Nat → Except Err T) (fuel attempt : Nat) :
    Option (Except Err T × List Nat) :=
  match fuel with
  | 0 => none
  | fuel' + 1 =>
    match op attempt with
    | Except.ok v => some (Except.ok v, [])
    | Except.error e =>
      if attempt = MAX_RETRIES then some (Except.error e, [])
      else
        match retryLoopMarked op fuel' (attempt + 1) with
        | none => none
        | some rest => some (rest.1, RETRY_DELAY * attempt :: rest.2)

/-- Outcome of `retryOperation` as a function of the first three attempts. -/
theorem retryOperation_eq {T : Type} (op : Nat → Except Err T) :
    retryOperation op =
      match op 1 with
      | Except.ok v => (Except.ok v, [])
      | Except.error _ =>
        match op 2 with
        | Except.ok v => (Except.ok v, [1000])
        | Except.error _ =>
          match op 3 with
          | Except.ok v => (Except.ok v, [1000, 2000])
          | Except.error e => (Except.error e, [1000, 2000]) := by
  rcases h1 : op 1 with e1 | v1 <;>
    rcases h2 : op 2 with e2 | v2 <;>
      rcases h3 : op 3 with e3 | v3 <;>
        simp [retryOperation, retryLoop, MAX_RETRIES, RETRY_DELAY, h1, h2, h3]

/-- The result of `retryOperation` is the value of some attempt `k ≤ 3`, or
the error of attempt 3 itself. -/
theorem retryOperation_cases {T : Type} (op : Nat → Except Err T) :
    (∃ k, 1 ≤ k ∧ k ≤ 3 ∧ ∃ v, op k = Except.ok v ∧
        (retryOperation op).1 = Except.ok v) ∨
    (∃ e, op 3 = Except.error e ∧ (retryOperation op).1 = Except.error e) := by
  rw [retryOperation_eq]
  rcases h1 : op 1 with e1 | v1
  · rcases h2 : op 2 with e2 | v2
    · rcases h3 : op 3 with e3 | v3
      · exact Or.inr ⟨e3, rfl, rfl⟩
      · exact Or.inl ⟨3, by omega, by omega, v3, h3, rfl⟩
    · exact Or.inl ⟨2, by omega, by omega, v2, h2, rfl⟩
  · exact Or.inl ⟨1, by omega, by omega, v1, h1, rfl⟩

/-- The optional `options` bag of `summarize`/`generateTitle`; the code reads
only `options?.language` and `options?.minLength`. -/
structure SummarizerOptions where
  language : Option String := none
  minLength : Option Nat := none
deriving DecidableEq, Repr

/-- `options?.language || "中文"`: the language spliced into the user prompt.
A falsy value (absent bag, absent field, empty string) falls back to the
default. -/
def langOf (options : Option SummarizerOptions) : String :=
  match options.bind (fun o => o.language) with
  | some s => if s = "" then "中文" else s
  | none => "中文"

/-- `options?.minLength || 200`: the minimum length spliced into the user
prompt. A falsy value (absent bag, absent field, zero) falls back to the
default. -/
def minLenOf (options : Option SummarizerOptions) : Nat :=
  match options.bind (fun o => o.minLength) with
  | some n => if n = 0 then 200 else n
  | none => 200

/-- The fixed `systemPrompt` template literal of `summarize` (literal braces
written as escapes). -/
def summarizeSystemPrompt : String :=
  "你是一个专业的内容创作者和摘要生成器。你的任务是：\n        1. 理解原始内容的核心观点和背景\n        2. 基于原始内容进行扩充，补充相关的背景信息、技术细节或实际应用场景\n        3. 确保扩充后的内容准确、专业，并保持行文流畅\n        4. 生成一个引人入胜的标题和3-5个关键词\n        5. ！生成一个0-100的分数，表示内容的重要性和价值，分数越高，表示内容越重要和有价值，同时越可能被读者关注，同时具有区分度，不应该分数很集中，精确到小数点后两位；\n\n        请只返回JSON格式数据，格式如下：\n        \x7b\n            \"title\": \"引人注目且专业的标题\",\n            \"content\": \"扩充和完善后的内容\",\n            \"keywords\": [\"关键词1\", \"关键词2\", \"关键词3\"],\n            \"score\": 0-100\n        \x7d"

/-- The tail of the `userPrompt` template of `summarize` after the spliced
`content` (the numbered requirement list). -/
def summarizeUserPromptTail : String :=
  "\n\n要求：\n        1. 保持专业性，可以补充相关的技术细节、应用场景或行业背景；\n        2. 注意内容的连贯性和可读性；\n        3. 如果原文涉及技术点，可以补充相关的技术原理或最新进展；\n        4. 如果原文是新闻，可以补充相关的行业影响或未来趋势；\n        5. 确保扩充的内容真实可靠，避免主观臆测；\n        6. 关键字的长度不超过4个字；\n        7. !!内容不要像是AIGC生成的，要像是一个人写的，不要出现“根据以上信息”、“根据以上内容”等字样，需要是新闻类型的；\n        8. 内容不要出现其他格式，例如markdown格式，而是纯文本；"

/-- The `userPrompt` template literal of `summarize` applied to already
resolved splice values (language string and minimum length). The stray
`\x7d字：` fragment is in the source template verbatim. -/
def summarizeUserPromptRaw (content lang : String) (minLen : Nat) : String :=
  "请分析以下内容，在保持原意的基础上进行专业的扩充和完善，使用" ++ lang ++
    "，完善后的内容不少于" ++ toString minLen ++ "字；\n      \x7d字：\n\n" ++ content ++
    summarizeUserPromptTail

/-- The `userPrompt` of `summarize`: the template with
`options?.language || "中文"` and `options?.minLength || 200` spliced in. -/
def summarizeUserPrompt (content : String) (options : Option SummarizerOptions) : String :=
  summarizeUserPromptRaw content (langOf options) (minLenOf options)

/-- The fixed model identifier `this.model = "deepseek-chat"`. -/
def modelName : String := "deepseek-chat"

/-- A request to `this.client.chat.completions.create`: model identifier, the
two role-tagged messages, and whether `response_format: json_object` is set. -/
structure ChatRequest where
  model : String
  systemPrompt : String
  userPrompt : String
  jsonFormat : Bool
deriving DecidableEq, Repr

/-- The remote request issued by each attempt of `summarize`. -/
def summarizeRequest (content : String) (options : Option SummarizerOptions) :
    ChatRequest :=
  { model := modelName, systemPrompt := summarizeSystemPrompt,
    userPrompt := summarizeUserPrompt content options, jsonFormat := true }

/-- The JavaScript object produced by `JSON.parse(completion) as Summary`, as
far as the code inspects it: `title` and `content` are string fields (`none`
models an absent field), `keywords` is `some` a list exactly when
`Array.isArray(summary.keywords)` holds, and `score` is carried but never
validated. -/
structure ParsedDoc where
  title : Option String
  content : Option String
  keywords : Option (List String)
  score : Option Int
deriving DecidableEq, Repr

/-- One attempt body of `summarize` after the remote call: the falsy check on
`response.choices[0]?.message?.content`, then `JSON.parse` inside a `try`
whose `catch` wraps the thrown message — both a parse failure and the
structural field-check failure thrown inside the `try` — in `parseFailPrefix`. -/
def summarizeAttempt (jsonParse : String → Except String ParsedDoc)
    (resp : Option String) : Except Err ParsedDoc :=
  if truthyStr resp = false then Except.error ⟨emptySummaryMsg⟩
  else
    match jsonParse (resp.getD "") with
    | Except.error msg => Except.error ⟨parseFailPrefix ++ msg⟩
    | Except.ok summary =>
      if truthyStr summary.title && truthyStr summary.content
          && summary.keywords.isSome then
        Except.ok summary
      else Except.error ⟨parseFailPrefix ++ badFormatMsg⟩

/-- `summarize(content, options)`: the falsy-input guard, then the retried
attempt. A falsy `content` in the string model is the empty string. `options`
reaches only the request `summarizeRequest content options` built by each
attempt; `responses k` is the text of the remote response to attempt `k`. -/
def summarize (jsonParse : String → Except String ParsedDoc) (content : String)
    (options : Option SummarizerOptions) (responses : Nat → Option String) :
    Except Err ParsedDoc × List Nat :=
  if content = "" then (Except.error ⟨invalidInputMsg⟩, [])
  else retryOperation (fun k => summarizeAttempt jsonParse (responses k))

/-- The fixed `systemPrompt` template literal of `generateTitle`. -/
def titleSystemPrompt : String :=
  "你是一个专业的内容创作者和标题生成器。你的任务是：\n        1. 从所有标题中选择最重要、最有价值的一个；\n        2. 标题简洁明了，不超过10个字；\n        3. 标题能够准确反映内容的核心观点；\n        4. 标题不要出现“根据以上信息”、“根据以上内容”等字样，要像新闻类型的；\n        5. 标题不要出现其他格式，例如markdown格式，而是纯文本"

/-- The `userPrompt` template literal of `generateTitle` applied to a resolved
language splice value. -/
def titleUserPromptRaw (content lang : String) : String :=
  "请从以下内容中选择最重要的一个标题，用于微信公众号文章标题，使用" ++ lang ++
    "：\n\n" ++ content ++ "\n\n"

/-- The `userPrompt` of `generateTitle` with `options?.language || "中文"`
spliced in. -/
def titleUserPrompt (content : String) (options : Option SummarizerOptions) : String :=
  titleUserPromptRaw content (langOf options)

/-- The remote request issued by each attempt of `generateTitle` (no
`response_format` hint). -/
def generateTitleRequest (content : String) (options : Option SummarizerOptions) :
    ChatRequest :=
  { model := modelName, systemPrompt := titleSystemPrompt,
    userPrompt := titleUserPrompt content options, jsonFormat := false }

/-- One attempt body of `generateTitle` after the remote call: the falsy check
on `response.choices[0]?.message?.content`, then the text returned verbatim. -/
def generateTitleAttempt (resp : Option String) : Except Err String :=
  if truthyStr resp = false then Except.error ⟨emptyTitleMsg⟩
  else Except.ok (resp.getD "")

/-- `generateTitle(content, options)`: no input guard, directly the retried
attempt. `content` and `options` reach only the request
`generateTitleRequest content options` built by each attempt. -/
def generateTitle (content : String) (options : Option SummarizerOptions)
    (responses : Nat → Option String) : Except Err String × List Nat :=
  retryOperation (fun k => generateTitleAttempt (responses k))

/-- The `OpenAI` handle built by `refresh`: the fields the constructor call
passes. -/
structure OpenAIClient where
  apiKey : Option String
  baseURL : String
deriving DecidableEq, Repr

/-- The base URL literal passed to the `OpenAI` constructor. -/
def deepseekBaseURL : String := "https://api.deepseek.com"

/-- The class's fields: the definitely-assigned mutable handle `client!`
(`none` before the first successful `refresh`) and the `readonly` field
`model`. -/
structure SummarizerState where
  client : Option OpenAIClient
  model : String
deriving DecidableEq, Repr

/-- The field initializers at construction time: `client` not yet assigned,
`model = "deepseek-chat"`. -/
def initialState : SummarizerState :=
  { client := none, model := modelName }

/-- `validateConfig()`: throws when `ConfigManager`'s `DEEPSEEK_API_KEY` value
(`key`) is falsy; `none` models an absent key, `some ""` an empty one. -/
def validateConfig (key : Option String) : Except Err Unit :=
  if truthyStr key = false then Except.error ⟨configErrorMsg⟩ else Except.ok ()

/-- `refresh()`: `validateConfig`, then a new `OpenAI` handle from a second
read of the key (`key1` and `key2` are the two `ConfigManager` reads). On a
thrown error the state is returned unchanged — the exception propagates before
the assignment to `this.client`. -/
def refresh (key1 key2 : Option String) (st : SummarizerState) :
    Except Err Unit × SummarizerState :=
  match validateConfig key1 with
  | Except.error e => (Except.error e, st)
  | Except.ok _ =>
    (Except.ok (),
     { st with client := some { apiKey := key2, baseURL := deepseekBaseURL } })

/-- `validateConfig` as a stateful operation: its body contains no assignment
to any field, so the state passes through. -/
def validateConfigOp (key : Option String) (st : SummarizerState) :
    Except Err Unit × SummarizerState :=
  (validateConfig key, st)

/-- `summarize` as a stateful operation: its body contains no assignment to
any field, so the state passes through. -/
def summarizeOp (jsonParse : String → Except String ParsedDoc) (content : String)
    (options : Option SummarizerOptions) (responses : Nat → Option String)
    (st : SummarizerState) : (Except Err ParsedDoc × List Nat) × SummarizerState :=
  (summarize jsonParse content options responses, st)

/-- `generateTitle` as a stateful operation: its body contains no assignment
to any field, so the state passes through. -/
def generateTitleOp (content : String) (options : Option SummarizerOptions)
    (responses : Nat → Option String) (st : SummarizerState) :
    (Except Err String × List Nat) × SummarizerState :=
  (generateTitle content options responses, st)

/-- A truthy optional string is exactly a `some` of a non-empty string. -/
theorem truthyStr_eq_true_iff (resp : Option String) :
    truthyStr resp = true ↔ ∃ t, resp = some t ∧ t ≠ "" := by
  cases resp <;> simp [truthyStr]

/-- An attempt of `generateTitle` on a truthy response returns its text. -/
theorem generateTitleAttempt_of_some (t : String) (h : t ≠ "") :
    generateTitleAttempt (some t) = Except.ok t := by
  simp [generateTitleAttempt, truthyStr, h]

/-- An attempt of `generateTitle` on a falsy response throws the empty-title
error. -/
theorem generateTitleAttempt_of_falsy (resp : Option String)
    (h : truthyStr resp = false) :
    generateTitleAttempt resp = Except.error ⟨emptyTitleMsg⟩ := by
  simp [generateTitleAttempt, h]

/-- An attempt of `summarize` returns a structurally validated document or
throws the empty-response error or a wrapped format error. -/
theorem summarizeAttempt_cases (jsonParse : String → Except String ParsedDoc)
    (resp : Option String) :
    (∃ doc, summarizeAttempt jsonParse resp = Except.ok doc ∧
      truthyStr doc.title = true ∧ truthyStr doc.content = true ∧
      doc.keywords.isSome = true) ∨
    (∃ e, summarizeAttempt jsonParse resp = Except.error e ∧
      (e.message = emptySummaryMsg ∨ ∃ s, e.message = parseFailPrefix ++ s)) := by
  cases htr : truthyStr resp with
  | false =>
    refine Or.inr ⟨⟨emptySummaryMsg⟩, ?_, Or.inl rfl⟩
    simp [summarizeAttempt, htr]
  | true =>
    rcases hp : jsonParse (resp.getD "") with msg | summary
    · refine Or.inr ⟨⟨parseFailPrefix ++ msg⟩, ?_, Or.inr ⟨msg, rfl⟩⟩
      simp [summarizeAttempt, htr, hp]
    · by_cases hv : (truthyStr summary.title && truthyStr summary.content
          && summary.keywords.isSome) = true
      · have hv' := hv
        simp only [Bool.and_eq_true] at hv'
        refine Or.inl ⟨summary, ?_, hv'.1.1, hv'.1.2, hv'.2⟩
        simp [summarizeAttempt, htr, hp, hv]
      · refine Or.inr ⟨⟨parseFailPrefix ++ badFormatMsg⟩, ?_, Or.inr ⟨badFormatMsg, rfl⟩⟩
        simp [summarizeAttempt, htr, hp, hv]

/-- C1: for every non-empty `content`, `summarize` either returns a parsed
summary whose `title` and `content` are truthy and whose `keywords` is an
array, or throws one of the defined error kinds — the empty-response error, or
a format error whose message wraps a description of the failure; it never
returns a partial summary. -/
theorem summarize_total_or_defined_error
    (jsonParse : String → Except String ParsedDoc) (content : String)
    (options : Option SummarizerOptions) (responses : Nat → Option String)
    (h : content ≠ "") :
    (∃ doc, (summarize jsonParse content options responses).1 = Except.ok doc ∧
      truthyStr doc.title = true ∧ truthyStr doc.content = true ∧
      doc.keywords.isSome = true) ∨
    (∃ e, (summarize jsonParse content options responses).1 = Except.error e ∧
      (e.message = emptySummaryMsg ∨ ∃ s, e.message = parseFailPrefix ++ s)) := by
  have hs : summarize jsonParse content options responses =
      retryOperation (fun k => summarizeAttempt jsonParse (responses k)) := by
    simp [summarize, h]
  rw [hs]
  rcases retryOperation_cases (fun k => summarizeAttempt jsonParse (responses k)) with
    ⟨k, _, _, v, hok, hres⟩ | ⟨e, herr, hres⟩
  · have hok' : summarizeAttempt jsonParse (responses k) = Except.ok v := hok
    rcases summarizeAttempt_cases jsonParse (responses k) with
      ⟨doc, hdoc, h1, h2, h3⟩ | ⟨e, he, _⟩
    · rw [hok'] at hdoc
      cases hdoc
      exact Or.inl ⟨v, hres, h1, h2, h3⟩
    · rw [hok'] at he
      exact absurd he (by simp)
  · have herr' : summarizeAttempt jsonParse (responses 3) = Except.error e := herr
    rcases summarizeAttempt_cases jsonParse (responses 3) with
      ⟨doc, hdoc, _, _, _⟩ | ⟨e', he, hcls⟩
    · rw [herr'] at hdoc
      exact absurd hdoc (by simp)
    · rw [herr'] at he
      cases he
      exact Or.inr ⟨e, hres, hcls⟩

/-- C1 witness: with a parse function returning a fully populated document,
`summarize` on a concrete non-empty content returns it. -/
theorem summarize_total_or_defined_error_witness :
    (∃ doc, (summarize (fun _ => Except.ok ⟨some "标题", some "正文", some ["词"], none⟩)
        "公司发布新产品" none (fun _ => some "x")).1 = Except.ok doc ∧
      truthyStr doc.title = true ∧ truthyStr doc.content = true ∧
      doc.keywords.isSome = true) ∨
    (∃ e, (summarize (fun _ => Except.ok ⟨some "标题", some "正文", some ["词"], none⟩)
        "公司发布新产品" none (fun _ => some "x")).1 = Except.error e ∧
      (e.message = emptySummaryMsg ∨ ∃ s, e.message = parseFailPrefix ++ s)) :=
  summarize_total_or_defined_error _ _ _ _ (by decide)

/-- C2: a falsy `content` makes `summarize` throw the input-validation error
immediately: for every response oracle and parse function the result is that
error with no waits — the retry helper is never entered and no remote request
is consulted. -/
theorem summarize_falsy_input_invalid
    (jsonParse : String → Except String ParsedDoc)
    (options : Option SummarizerOptions) (responses : Nat → Option String) :
    summarize jsonParse "" options responses =
      (Except.error ⟨invalidInputMsg⟩, []) := by
  simp [summarize]

/-- C3: the retry helper's result is a function of the first three attempt
outcomes alone: a success at attempt 1, 2 or 3 is returned with waits of
`1000·k` milliseconds after each failed attempt `k < 3`; three failures
propagate the third error unchanged; any error retries identically; attempts
past the third are never consulted. -/
theorem retryOperation_spec {T : Type} (op : Nat → Except Err T) :
    (∀ v, op 1 = Except.ok v → retryOperation op = (Except.ok v, [])) ∧
    (∀ e v, op 1 = Except.error e → op 2 = Except.ok v →
      retryOperation op = (Except.ok v, [1000])) ∧
    (∀ e1 e2 v, op 1 = Except.error e1 → op 2 = Except.error e2 →
      op 3 = Except.ok v → retryOperation op = (Except.ok v, [1000, 2000])) ∧
    (∀ e1 e2 e3, op 1 = Except.error e1 → op 2 = Except.error e2 →
      op 3 = Except.error e3 →
      retryOperation op = (Except.error e3, [1000, 2000])) ∧
    (∀ op' : Nat → Except Err T, (∀ k, k ≤ 3 → op k = op' k) →
      retryOperation op = retryOperation op') := by
  refine ⟨?_, ?_, ?_, ?_, ?_⟩
  · intro v h1
    rw [retryOperation_eq, h1]
  · intro e v h1 h2
    rw [retryOperation_eq, h1, h2]
  · intro e1 e2 v h1 h2 h3
    rw [retryOperation_eq, h1, h2, h3]
  · intro e1 e2 e3 h1 h2 h3
    rw [retryOperation_eq, h1, h2, h3]
  · intro op' hagree
    rw [retryOperation_eq, retryOperation_eq,
      hagree 1 (by omega), hagree 2 (by omega), hagree 3 (by omega)]

/-- C3 witness: an operation failing twice then succeeding returns the third
attempt's value after waits of 1000 and 2000 milliseconds. -/
theorem retryOperation_spec_witness :
    retryOperation (fun k => if k = 3 then Except.ok 7 else Except.error ⟨"boom"⟩)
      = (Except.ok 7, [1000, 2000]) :=
  (retryOperation_spec
      (fun k => if k = 3 then Except.ok 7 else Except.error ⟨"boom"⟩)).2.2.1
    ⟨"boom"⟩ ⟨"boom"⟩ 7 rfl rfl rfl

/-- C4: with a falsy configured key, `refresh` throws the configuration error
and returns the state unchanged — the handle is only replaced after the
validation succeeds, whatever the second key read yields. -/
theorem refresh_missing_key_error (key1 key2 : Option String)
    (st : SummarizerState) (h : truthyStr key1 = false) :
    refresh key1 key2 st = (Except.error ⟨configErrorMsg⟩, st) := by
  simp [refresh, validateConfig, h]

/-- C4 witness: an absent key fails `refresh` and leaves a previously built
handle untouched. -/
theorem refresh_missing_key_error_witness :
    refresh none (some "k")
        { client := some { apiKey := some "old", baseURL := deepseekBaseURL },
          model := modelName }
      = (Except.error ⟨configErrorMsg⟩,
         { client := some { apiKey := some "old", baseURL := deepseekBaseURL },
           model := modelName }) :=
  refresh_missing_key_error none (some "k") _ rfl

/-- C5 counterexample: at an absent key the thrown message is the source's
"DeepSeek API key is required", not the claimed "API key is required". -/
theorem validateConfig_message_counterexample :
    validateConfig none = Except.error ⟨"DeepSeek API key is required"⟩ ∧
    configErrorMsg ≠ "API key is required" := by
  exact ⟨rfl, by decide⟩

/-- C5 amended: `validateConfig` throws the configuration error — whose
message is "DeepSeek API key is required" — exactly when the key is missing or
empty, returns unit exactly when the key is truthy, and as a stateful
operation leaves the state unchanged. -/
theorem validateConfig_spec (key : Option String) (st : SummarizerState) :
    (validateConfig key = Except.error ⟨configErrorMsg⟩ ↔ truthyStr key = false) ∧
    (validateConfig key = Except.ok () ↔ truthyStr key = true) ∧
    (validateConfigOp key st).2 = st := by
  refine ⟨?_, ?_, rfl⟩ <;> cases htr : truthyStr key <;> simp [validateConfig, htr]

/-- C6: `generateTitle` either returns verbatim the text of an attempt whose
response is truthy, or — exactly when the text of every attempt is absent or
empty — throws the empty-title error; no parsing or structural validation is
applied to the returned text. -/
theorem generateTitle_verbatim_or_empty (content : String)
    (options : Option SummarizerOptions) (responses : Nat → Option String) :
    (∃ k t, 1 ≤ k ∧ k ≤ 3 ∧ responses k = some t ∧ t ≠ "" ∧
      (generateTitle content options responses).1 = Except.ok t) ∨
    ((∀ k, 1 ≤ k → k ≤ 3 → truthyStr (responses k) = false) ∧
      (generateTitle content options responses).1 =
        Except.error ⟨emptyTitleMsg⟩) := by
  have hg : generateTitle content options responses =
      retryOperation (fun k => generateTitleAttempt (responses k)) := rfl
  rw [hg, retryOperation_eq]
  cases h1 : truthyStr (responses 1) with
  | true =>
    obtain ⟨t, ht, hne⟩ := (truthyStr_eq_true_iff _).mp h1
    refine Or.inl ⟨1, t, le_refl 1, by omega, ht, hne, ?_⟩
    rw [ht] at h1 ⊢
    simp [generateTitleAttempt_of_some t hne]
  | false =>
    have e1 := generateTitleAttempt_of_falsy _ h1
    cases h2 : truthyStr (responses 2) with
    | true =>
      obtain ⟨t, ht, hne⟩ := (truthyStr_eq_true_iff _).mp h2
      refine Or.inl ⟨2, t, by omega, by omega, ht, hne, ?_⟩
      rw [ht] at h2 ⊢
      simp [e1, generateTitleAttempt_of_some t hne]
    | false =>
      have e2 := generateTitleAttempt_of_falsy _ h2
      cases h3 : truthyStr (responses 3) with
      | true =>
        obtain ⟨t, ht, hne⟩ := (truthyStr_eq_true_iff _).mp h3
        refine Or.inl ⟨3, t, by omega, by omega, ht, hne, ?_⟩
        rw [ht] at h3 ⊢
        simp [e1, e2, generateTitleAttempt_of_some t hne]
      | false =>
        have e3 := generateTitleAttempt_of_falsy _ h3
        refine Or.inr ⟨?_, by simp [e1, e2, e3]⟩
        intro k hk1 hk3
        interval_cases k <;> assumption

/-- C7: an absent options bag defaults the prompt splices to "中文" and 200;
supplied truthy values are spliced instead; the two options reach nothing but
the user prompt — the other request parts and the whole outcome of `summarize`
are identical for any two bags. -/
theorem summarize_options_only_prompt (content : String) :
    (summarizeUserPrompt content none = summarizeUserPromptRaw content "中文" 200) ∧
    (∀ lang minLen, lang ≠ "" → minLen ≠ 0 →
      summarizeUserPrompt content (some ⟨some lang, some minLen⟩) =
        summarizeUserPromptRaw content lang minLen) ∧
    (∀ options options' : Option SummarizerOptions,
      (summarizeRequest content options).model =
        (summarizeRequest content options').model ∧
      (summarizeRequest content options).systemPrompt =
        (summarizeRequest content options').systemPrompt ∧
      (summarizeRequest content options).jsonFormat =
        (summarizeRequest content options').jsonFormat) ∧
    (∀ (jsonParse : String → Except String ParsedDoc)
        (responses : Nat → Option String) (options options' : Option SummarizerOptions),
      summarize jsonParse content options responses =
        summarize jsonParse content options' responses) := by
  refine ⟨rfl, ?_, fun _ _ => ⟨rfl, rfl, rfl⟩, fun _ _ _ _ => rfl⟩
  intro lang minLen hlang hlen
  simp [summarizeUserPrompt, langOf, minLenOf, hlang, hlen]

/-- C7 witness: supplied options are spliced into the user prompt at a
concrete input. -/
theorem summarize_options_only_prompt_witness :
    summarizeUserPrompt "abc" (some ⟨some "English", some 100⟩) =
      summarizeUserPromptRaw "abc" "English" 100 :=
  (summarize_options_only_prompt "abc").2.1 "English" 100 (by decide) (by decide)

/-- C8: the handle is the only mutable field: a successful `refresh` replaces
it wholesale — the new handle is built from the freshly read key and the fixed
base URL — while the `model` field is unchanged, and no other operation
changes any field. -/
theorem refresh_replaces_only_client (key1 key2 : Option String)
    (st : SummarizerState) :
    ((refresh key1 key2 st).1 = Except.ok () →
      (refresh key1 key2 st).2 =
        { client := some { apiKey := key2, baseURL := deepseekBaseURL },
          model := st.model }) ∧
    (∀ key st', (validateConfigOp key st').2 = st') ∧
    (∀ (jsonParse : String → Except String ParsedDoc) content options responses st',
      (summarizeOp jsonParse content options responses st').2 = st') ∧
    (∀ content options responses st',
      (generateTitleOp content options responses st').2 = st') := by
  refine ⟨?_, fun _ _ => rfl, fun _ _ _ _ _ => rfl, fun _ _ _ _ => rfl⟩
  cases htr : truthyStr key1 <;> simp [refresh, validateConfig, htr]

/-- C8 witness: a successful `refresh` at a concrete key rebuilds the handle
and keeps the model identifier. -/
theorem refresh_replaces_only_client_witness :
    (refresh (some "k") (some "k") initialState).2 =
      { client := some { apiKey := some "k", baseURL := deepseekBaseURL },
        model := modelName } :=
  (refresh_replaces_only_client (some "k") (some "k") initialState).1 rfl

/-- C9: `generateTitle` applies no input guard: called with empty content it
still enters the retry helper, issues the request with the empty content
spliced into the user prompt, and returns the remote text instead of the
input-validation error thrown by `summarize`. -/
theorem generateTitle_no_input_validation (options : Option SummarizerOptions)
    (responses : Nat → Option String) (t : String)
    (h1 : responses 1 = some t) (h2 : t ≠ "") :
    (generateTitle "" options responses).1 = Except.ok t ∧
    (generateTitle "" options responses).1 ≠ Except.error ⟨invalidInputMsg⟩ ∧
    (generateTitleRequest "" options).userPrompt =
      titleUserPromptRaw "" (langOf options) := by
  have hok : (generateTitle "" options responses).1 = Except.ok t := by
    have hg : generateTitle "" options responses =
        retryOperation (fun k => generateTitleAttempt (responses k)) := rfl
    rw [hg, retryOperation_eq, h1, generateTitleAttempt_of_some t h2]
  exact ⟨hok, by rw [hok]; simp, rfl⟩

/-- C9 witness: with empty content and a concrete remote response, the
response text is returned. -/
theorem generateTitle_no_input_validation_witness :
    (generateTitle "" none (fun _ => some "新品发布")).1 = Except.ok "新品发布" ∧
    (generateTitle "" none (fun _ => some "新品发布")).1 ≠
      Except.error ⟨invalidInputMsg⟩ ∧
    (generateTitleRequest "" none).userPrompt = titleUserPromptRaw "" (langOf none) :=
  generateTitle_no_input_validation none (fun _ => some "新品发布") "新品发布" rfl
    (by decide)

/-- C10: the throw after the retry loop is unreachable: running the loop from
attempt 1 with the statement after the loop replaced by a distinct marker
never produces the marker and agrees with the actual loop, for every wrapped
operation. -/
theorem retryLoop_final_throw_unreachable {T : Type} (op : Nat → Except Err T) :
    retryLoopMarked op MAX_RETRIES 1 = some (retryOperation op) := by
  rcases h1 : op 1 with e1 | v1 <;> rcases h2 : op 2 with e2 | v2 <;>
    rcases h3 : op 3 with e3 | v3 <;>
      simp [retryOperation, retryLoop, retryLoopMarked, MAX_RETRIES, RETRY_DELAY,
        h1, h2, h3]

end DeepseekAISummarizer
